import Mathlib

/-!
Verification of `src/main.py` (enable-dependabot-auto-merge), a one-shot
pipeline: resolve a repository URL, clone, install a Dependabot auto-merge
workflow file idempotently, commit/push a fixed branch, open a pull request
and assign a reviewer.

The embedding below follows the Python source function by function.
External collaborators (the YAML library's `safe_load`, the git client,
the HTTP client) are modelled by explicit parameters: `safe_load` is an
arbitrary parser `String → Except Unit Val` (it raises, i.e. returns
`.error`, on malformed input), the HTTP response to the pull-request call
is a record `APIResponse`, and the side effects performed by `__main__`
are recorded in a `Trace`.
-/

namespace AutoMerge

/-- Result of Python's `urlparse`: we only model the components the code
touches (`get_api_url` reads `.path` only). -/
structure ParsedURL where
  scheme : String
  netloc : String
  path : String
deriving DecidableEq

/-- Python `s.strip("/")` on a list of characters: drop the character `c`
from both ends. -/
def stripChar (c : Char) (l : List Char) : List Char :=
  ((l.dropWhile fun x => x = c).reverse.dropWhile fun x => x = c).reverse

/-- Python `s.split(sep)` for a one-character separator: split at every
occurrence, keeping empty pieces; the empty string yields `[""]`. -/
def splitOnChar (c : Char) : List Char → List (List Char)
  | [] => [[]]
  | x :: xs =>
    if x = c then [] :: splitOnChar c xs
    else
      match splitOnChar c xs with
      | [] => [[x]]
      | p :: ps => (x :: p) :: ps

/-- Boolean list-prefix test, used to locate pattern occurrences the way
Python's `str.replace` scans. -/
def isPrefixL : List Char → List Char → Bool
  | [], _ => true
  | _ :: _, [] => false
  | p :: ps, x :: xs => p = x && isPrefixL ps xs

/-- Whether `pat` occurs as a contiguous sublist. -/
def containsSub (pat : List Char) : List Char → Bool
  | [] => isPrefixL pat []
  | x :: xs => isPrefixL pat (x :: xs) || containsSub pat xs

/-- Worker for `replaceAll`: scan left to right; at a position where `pat`
is a prefix, emit `rep` and skip past the match, exactly as Python's
`str.replace` does. `fuel` bounds the recursion and is taken to be the
input length. -/
def replaceAllAux (pat rep : List Char) : Nat → List Char → List Char
  | _, [] => []
  | 0, l => l
  | Nat.succ fuel, x :: xs =>
    if isPrefixL pat (x :: xs) = true then
      rep ++ replaceAllAux pat rep fuel (List.drop (pat.length - 1) xs)
    else
      x :: replaceAllAux pat rep fuel xs

/-- Python `s.replace(pat, rep)` for a non-empty `pat` (the code only uses
`pat = ".git"`): every non-overlapping occurrence is replaced, scanning
left to right. -/
def replaceAll (pat rep l : List Char) : List Char :=
  if pat = [] then l else replaceAllAux pat rep l.length l

/-- The single failure of the URL resolver: in the Python source this is
the `IndexError` raised by `path_parts[1]` when the path has fewer than
two parts. -/
inductive URLError
  | malformed
deriving DecidableEq

/-- `path_parts = parsed_url.path.strip("/").split("/")` from
`get_api_url` (main.py line 25). -/
def path_parts (path : String) : List (List Char) :=
  splitOnChar '/' (stripChar '/' path.toList)

/-- `get_api_url` (main.py lines 23-29): take the first two path parts as
user and repo, remove `".git"` from the repo part, and build the fixed
`https://api.github.com/repos/...` endpoint. Accessing a missing part
raises (`.error .malformed`). -/
def get_api_url (url : ParsedURL) : Except URLError String :=
  match path_parts url.path with
  | user :: repo :: _ =>
    .ok ("https://api.github.com/repos/" ++ String.mk user ++ "/" ++
      String.mk (replaceAll (String.toList ".git") [] repo))
  | _ => .error URLError.malformed

/-- Modelled from the spec: the name transformation the spec describes,
stripping `".git"` only when it is a trailing suffix of the name. This is
the comparison point for the refinement claim about `get_api_url`; the
source code instead removes every occurrence. -/
def specStripGitSuffix (name : List Char) : List Char :=
  if isPrefixL (String.toList ".git").reverse name.reverse = true then
    name.reverse.drop 4 |>.reverse
  else
    name

instance {ε α : Type} [DecidableEq ε] [DecidableEq α] : DecidableEq (Except ε α)
  | .error e, .error f =>
    if h : e = f then isTrue (by rw [h])
    else isFalse (by intro c; cases c; exact h rfl)
  | .error _, .ok _ => isFalse (by intro c; cases c)
  | .ok _, .error _ => isFalse (by intro c; cases c)
  | .ok a, .ok b =>
    if h : a = b then isTrue (by rw [h])
    else isFalse (by intro c; cases c; exact h rfl)

/-- `is_yaml_content_same` (main.py lines 40-47). `existing_file` is the
content of the destination file, `none` when `os.path.exists` is false;
`new_file` is the content of the template file. `safe_load` stands for
`yaml.safe_load`; note the source wraps neither call in a `try`, so a
parse failure propagates (`.error`). -/
def is_yaml_content_same {Val : Type} [DecidableEq Val]
    (safe_load : String → Except Unit Val)
    (existing_file : Option String) (new_file : String) : Except Unit Bool :=
  match existing_file with
  | none => .ok false
  | some existing_content =>
    match safe_load existing_content with
    | .error e => .error e
    | .ok existing_v =>
      match safe_load new_file with
      | .error e => .error e
      | .ok new_v => .ok (decide (existing_v = new_v))

/-- The fields of the HTTP response to `POST /pulls` that
`create_pull_request` reads: status code and, from the JSON body, the PR
number, its `html_url` and the error `message`. -/
structure APIResponse where
  status : Nat
  number : Int
  html_url : String
  message : String
deriving DecidableEq

/-- The JSON body `create_pull_request` sends (main.py lines 89-94). The
`base` field is the string literal `"main"` in the source. -/
structure PullRequestPayload where
  title : String
  head : String
  base : String
  assignees : List String
deriving DecidableEq

/-- The request body built in `create_pull_request` for the acting user. -/
def pull_request_payload (user : String) : PullRequestPayload :=
  { title := "enable dependabot auto-merge",
    head := "enable-dependabot-auto-merge",
    base := "main",
    assignees := [user] }

/-- `create_pull_request` (main.py lines 87-104), given the HTTP response:
returns the sentinel `-1` and prints a failure line when the status is not
201, otherwise prints a success line and returns the PR number. The
printed lines are returned alongside the result. -/
def create_pull_request (resp : APIResponse) : Int × List String :=
  if resp.status ≠ 201 then
    (-1, ["Failed to create pull request: " ++ resp.message])
  else
    (resp.number, ["Pull request created successfully: " ++ resp.html_url])

/-- The four environment variables read at startup (main.py lines
125-128). `os.getenv` returns `None` (here `none`) when a variable is
absent; the source performs no presence check. -/
structure Env where
  github_token : Option String
  github_username : Option String
  commit_user : Option String
  commit_email : Option String
deriving DecidableEq

/-- Installation result labels from the spec, attached to the branch the
`__main__` block takes: `alreadyPresent` for the early `exit(0)` path,
`installed` for a copy into an empty destination, `updated` for a copy
over an existing different file. -/
inductive InstallOutcome
  | alreadyPresent
  | installed
  | updated
deriving DecidableEq

/-- Observable effects of one run of the `__main__` block (main.py lines
123-156). `destAfter` is the content of
`.github/workflows/dependabot-auto-merge.yml` in the workspace when the
run ends; `raised` records an uncaught exception escaping the
`with tempfile.TemporaryDirectory()` block (which still removes the
workspace on its way out). -/
structure Trace where
  cloned : Bool
  permissionsCalled : Bool
  copiedTemplate : Bool
  branchCreated : Bool
  committed : Bool
  pushed : Bool
  prCalled : Bool
  assigneeCalled : Bool
  workspaceRemoved : Bool
  raised : Bool
  outcome : Option InstallOutcome
  destAfter : Option String
  messages : List String
deriving DecidableEq

/-- The trace before any step has run. -/
def emptyTrace : Trace :=
  { cloned := false, permissionsCalled := false, copiedTemplate := false,
    branchCreated := false, committed := false, pushed := false,
    prCalled := false, assigneeCalled := false, workspaceRemoved := false,
    raised := false, outcome := none, destAfter := none, messages := [] }

/-- The `__main__` block (main.py lines 123-156). Inputs: the parser, the
environment, the parsed CLI URL, the template file's content, the content
of the destination file in the fresh clone (`none` when the cloned
repository has no workflow file), and the HTTP response the pull-request
call would receive. Clone, branch, commit and push are assumed to succeed
(they are external calls); every other branch follows the source. Note
that `env` is read but never validated, exactly as in the source. -/
def run_main {Val : Type} [DecidableEq Val]
    (safe_load : String → Except Unit Val) (env : Env) (url : ParsedURL)
    (template : String) (dest : Option String) (api : APIResponse) : Trace :=
  match get_api_url url with
  | .error _ =>
    -- `get_api_url` raises before the temporary directory exists.
    { emptyTrace with raised := true, destAfter := dest }
  | .ok _ =>
    let t0 : Trace :=
      { emptyTrace with
        cloned := true, permissionsCalled := true,
        destAfter := dest }
    match is_yaml_content_same safe_load dest template with
    | .error _ =>
      -- the parse exception propagates; the context manager still
      -- removes the workspace.
      { t0 with raised := true, workspaceRemoved := true }
    | .ok true =>
      { t0 with
        outcome := some InstallOutcome.alreadyPresent,
        workspaceRemoved := true,
        messages := ["Auto-merge is already enabled. Exiting..."] }
    | .ok false =>
      let t1 : Trace :=
        { t0 with
          copiedTemplate := true, destAfter := some template,
          outcome := some (if dest = none then InstallOutcome.installed
            else InstallOutcome.updated)
          branchCreated := true, committed := true, pushed := true }
      let pr := create_pull_request api
      let t2 : Trace := { t1 with prCalled := true, messages := pr.2 }
      if pr.1 ≠ -1 then
        { t2 with assigneeCalled := true, workspaceRemoved := true }
      else
        { t2 with workspaceRemoved := true }

/-- A concrete stand-in for `yaml.safe_load` used to instantiate the
theorems: it fails on the (malformed) document `"\x7b"` and otherwise
returns the input's length, so distinct texts can share a parse. -/
def yamlLoadModel (s : String) : Except Unit Nat :=
  if s = "\x7b" then .error () else .ok s.length

/-- An environment with every variable set. -/
def envFull : Env :=
  { github_token := some "tok", github_username := some "octocat",
    commit_user := some "Octo Cat", commit_email := some "octo@cat" }

/-- An environment with every variable absent. -/
def envNone : Env :=
  { github_token := none, github_username := none,
    commit_user := none, commit_email := none }

/-- A successful pull-request response. -/
def apiOk : APIResponse :=
  { status := 201, number := 7, html_url := "https://github.com/a/b/pull/7",
    message := "" }

/-- A failed pull-request response (validation error). -/
def apiFail : APIResponse :=
  { status := 422, number := 0, html_url := "", message := "Validation Failed" }

/-- A well-formed URL used to instantiate the pipeline theorems. -/
def urlAB : ParsedURL := ⟨"https", "github.com", "/a/b"⟩

/-! Lemmas about the list-level string operations. -/

theorem splitOnChar_of_not_mem (c : Char) (r : List Char) (h : c ∉ r) :
    splitOnChar c r = [r] := by
  induction r with
  | nil => rfl
  | cons x xs ih =>
    have hx : ¬x = c := fun hxc => h (hxc ▸ List.mem_cons_self x xs)
    have hxs : c ∉ xs := fun hm => h (List.mem_cons_of_mem x hm)
    simp [splitOnChar, hx, ih hxs]

theorem splitOnChar_append (c : Char) (u r : List Char) (h : c ∉ u) :
    splitOnChar c (u ++ c :: r) = u :: splitOnChar c r := by
  induction u with
  | nil => simp [splitOnChar]
  | cons x xs ih =>
    have hx : ¬x = c := fun hxc => h (hxc ▸ List.mem_cons_self x xs)
    have hxs : c ∉ xs := fun hm => h (List.mem_cons_of_mem x hm)
    simp only [List.cons_append, splitOnChar, hx, if_false, List.append_eq,
      ih hxs]

theorem stripChar_sandwich (c : Char) (u r : List Char) (hu : u ≠ [])
    (hr : r ≠ []) (hu2 : c ∉ u) (hr2 : c ∉ r) :
    stripChar c (c :: (u ++ c :: r)) = u ++ c :: r := by
  obtain ⟨a, u2, rfl⟩ : ∃ a u2, u = a :: u2 := by
    cases u with
    | nil => exact absurd rfl hu
    | cons a u2 => exact ⟨a, u2, rfl⟩
  have ha : ¬a = c := fun hac => hu2 (hac ▸ List.mem_cons_self a u2)
  obtain ⟨b, t, hbt⟩ : ∃ b t, r.reverse = b :: t := by
    cases hrev : r.reverse with
    | nil => exact absurd (List.reverse_eq_nil_iff.mp hrev) hr
    | cons b t => exact ⟨b, t, rfl⟩
  have hb : ¬b = c := by
    intro hbc
    exact hr2 (List.mem_reverse.mp (hbt ▸ (hbc ▸ List.mem_cons_self b t)))
  unfold stripChar
  have h1 : List.dropWhile (fun x => x = c) (c :: ((a :: u2) ++ c :: r)) =
      (a :: u2) ++ c :: r := by
    simp [List.dropWhile_cons, ha]
  rw [h1]
  have h2 : ((a :: u2) ++ c :: r).reverse = r.reverse ++ c :: (a :: u2).reverse := by
    simp [List.reverse_append]
  rw [h2, hbt]
  have h3 : List.dropWhile (fun x => x = c) ((b :: t) ++ c :: (a :: u2).reverse) =
      (b :: t) ++ c :: (a :: u2).reverse := by
    simp [List.dropWhile_cons, hb]
  rw [h3, ← hbt]
  have h4 : r.reverse ++ c :: (a :: u2).reverse = ((a :: u2) ++ c :: r).reverse := by
    simp [List.reverse_append]
  rw [h4, List.reverse_reverse]

theorem replaceAllAux_of_not_contains (pat rep : List Char) (fuel : Nat) :
    ∀ l : List Char, containsSub pat l = false →
      replaceAllAux pat rep fuel l = l := by
  induction fuel with
  | zero => intro l _; cases l <;> rfl
  | succ fuel ih =>
    intro l h
    cases l with
    | nil => rfl
    | cons x xs =>
      rw [containsSub, Bool.or_eq_false_iff] at h
      rw [replaceAllAux, if_neg (by simp [h.1]), ih xs h.2]

theorem replaceAll_of_not_contains (pat rep : List Char) (l : List Char)
    (h : containsSub pat l = false) : replaceAll pat rep l = l := by
  unfold replaceAll
  split
  · rfl
  · exact replaceAllAux_of_not_contains pat rep l.length l h

theorem path_parts_two_segments (u r : List Char) (hu : u ≠ []) (hr : r ≠ [])
    (hu2 : '/' ∉ u) (hr2 : '/' ∉ r) :
    path_parts (String.mk ('/' :: (u ++ '/' :: r))) = [u, r] := by
  unfold path_parts
  rw [show (String.mk ('/' :: (u ++ '/' :: r))).toList =
    '/' :: (u ++ '/' :: r) from rfl]
  rw [stripChar_sandwich '/' u r hu hr hu2 hr2,
    splitOnChar_append '/' u r hu2, splitOnChar_of_not_mem '/' r hr2]

/-- Claim C3 (counterexample): the claim says only a trailing `.git`
suffix is removed from the name and the rest is unchanged. On the input
path `/owner/my.gitrepo` the name has an interior `.git`, the
spec-modelled suffix strip leaves it unchanged, but `get_api_url` removes
it: the code runs `repo.replace(".git", "")`, which deletes every
occurrence. -/
theorem get_api_url_not_suffix_only :
    get_api_url ⟨"https", "github.com", "/owner/my.gitrepo"⟩ =
      .ok "https://api.github.com/repos/owner/myrepo" ∧
    specStripGitSuffix (String.toList "my.gitrepo") = String.toList "my.gitrepo" ∧
    ("myrepo" : String) ≠ "my.gitrepo" := by decide

/-- Claim C3 (amended): for every URL whose path has at least two
segments — the parts of the stripped path split on `/`, exactly as the
code computes them, empty parts and extra segments included —
`get_api_url` returns the first segment as owner unchanged and, as name,
the second segment with every occurrence of the substring `".git"`
removed, not only a trailing suffix; later segments are ignored. The
name is returned unchanged exactly when `".git"` does not occur in it
anywhere. -/
theorem get_api_url_owner_name (url : ParsedURL) (user repo : List Char)
    (rest : List (List Char))
    (h : path_parts url.path = user :: repo :: rest) :
    get_api_url url =
      .ok ("https://api.github.com/repos/" ++ String.mk user ++ "/" ++
        String.mk (replaceAll (String.toList ".git") [] repo)) ∧
    (containsSub (String.toList ".git") repo = false →
      String.mk (replaceAll (String.toList ".git") [] repo) = String.mk repo) := by
  constructor
  · unfold get_api_url
    rw [h]
  · intro hno
    rw [replaceAll_of_not_contains _ _ _ hno]

/-- Claim C3 (witness): a four-segment path; the owner `o` is returned
unchanged, the name is the second segment `n.git` with its trailing
suffix removed, and the later segments are ignored. -/
theorem get_api_url_owner_name_witness :
    get_api_url ⟨"https", "github.com", "/o/n.git/tree/main"⟩ =
      .ok ("https://api.github.com/repos/" ++ String.mk (String.toList "o") ++
        "/" ++ String.mk (replaceAll (String.toList ".git") []
          (String.toList "n.git"))) ∧
    (containsSub (String.toList ".git") (String.toList "n.git") = false →
      String.mk (replaceAll (String.toList ".git") [] (String.toList "n.git")) =
        String.mk (String.toList "n.git")) :=
  get_api_url_owner_name ⟨"https", "github.com", "/o/n.git/tree/main"⟩
    (String.toList "o") (String.toList "n.git")
    [String.toList "tree", String.toList "main"] (by decide)

/-- Claim C4: `get_api_url` fails (the `IndexError` from `path_parts[1]`,
modelled as `URLError.malformed`) exactly when the path, stripped of
outer slashes and split on `/`, has fewer than two parts; and its only
failure outcome is that error. The function is pure: it is a total Lean
function of the URL with no state. -/
theorem get_api_url_error_iff (url : ParsedURL) :
    (get_api_url url = .error URLError.malformed ↔
      (path_parts url.path).length < 2) ∧
    ∀ e, get_api_url url = .error e → e = URLError.malformed := by
  refine ⟨?_, fun e _ => by cases e; rfl⟩
  unfold get_api_url
  cases hp : path_parts url.path with
  | nil => simp [hp]
  | cons a l =>
    cases l with
    | nil => simp [hp]
    | cons b t => simp [hp]

/-- Claim C4 (witness): a one-segment path fails, a two-segment path does
not. -/
theorem get_api_url_error_iff_witness :
    get_api_url ⟨"https", "github.com", "/onlyowner"⟩ =
      .error URLError.malformed :=
  (get_api_url_error_iff ⟨"https", "github.com", "/onlyowner"⟩).1.mpr
    (by decide)

/-- Claim C10: every successful result of `get_api_url` begins with the
fixed prefix `https://api.github.com/repos/`, and the result depends only
on the URL's path: the scheme and host of the input are ignored, so a
non-GitHub URL still resolves to a github.com API endpoint. -/
theorem get_api_url_github_endpoint (url : ParsedURL) :
    (∀ s, get_api_url url = .ok s →
      ∃ rest, s = "https://api.github.com/repos/" ++ rest) ∧
    ∀ sch net, get_api_url ⟨sch, net, url.path⟩ = get_api_url url := by
  constructor
  · intro s hs
    unfold get_api_url at hs
    cases hp : path_parts url.path with
    | nil => rw [hp] at hs; cases hs
    | cons a l =>
      cases l with
      | nil => rw [hp] at hs; cases hs
      | cons b t =>
        rw [hp] at hs
        refine ⟨String.mk a ++ "/" ++
          String.mk (replaceAll (String.toList ".git") [] b), ?_⟩
        have hv := (Except.ok.inj hs).symm
        rw [hv]
        simp [String.append_assoc]
  · intro sch net
    rfl

/-- Claim C10 (witness): a GitLab URL still yields a github.com endpoint. -/
theorem get_api_url_github_endpoint_witness :
    ∃ rest, ("https://api.github.com/repos/a/b" : String) =
      "https://api.github.com/repos/" ++ rest :=
  (get_api_url_github_endpoint ⟨"http", "gitlab.example.org", "/a/b"⟩).1
    "https://api.github.com/repos/a/b" (by decide)

/-! Lemmas about the idempotency check. -/

theorem is_yaml_same_ok_true {Val : Type} [DecidableEq Val]
    (safe_load : String → Except Unit Val) (dest : Option String)
    (tmpl : String) (h : is_yaml_content_same safe_load dest tmpl = .ok true) :
    ∃ c v, dest = some c ∧ safe_load c = .ok v ∧ safe_load tmpl = .ok v := by
  cases dest with
  | none => simp [is_yaml_content_same] at h
  | some c =>
    simp only [is_yaml_content_same] at h
    cases hc : safe_load c with
    | error e => rw [hc] at h; cases h
    | ok v =>
      rw [hc] at h
      cases ht : safe_load tmpl with
      | error e => rw [ht] at h; cases h
      | ok w =>
        rw [ht] at h
        have hvw : v = w := of_decide_eq_true (Except.ok.inj h)
        exact ⟨c, v, rfl, hc, by rw [hvw]⟩

theorem is_yaml_same_of_eq {Val : Type} [DecidableEq Val]
    (safe_load : String → Except Unit Val) (c tmpl : String) (v : Val)
    (hc : safe_load c = .ok v) (ht : safe_load tmpl = .ok v) :
    is_yaml_content_same safe_load (some c) tmpl = .ok true := by
  simp only [is_yaml_content_same]
  rw [hc, ht]
  simp

theorem is_yaml_same_of_ne {Val : Type} [DecidableEq Val]
    (safe_load : String → Except Unit Val) (c tmpl : String) (v w : Val)
    (hc : safe_load c = .ok v) (ht : safe_load tmpl = .ok w) (hvw : v ≠ w) :
    is_yaml_content_same safe_load (some c) tmpl = .ok false := by
  simp only [is_yaml_content_same]
  rw [hc, ht]
  simp [hvw]

/-- Claim C5: when the existing workflow file parses to the same value as
the template — for any byte-level presentation of it, hence for any key
order or comment placement — the run reports "already present", leaves
the destination bytes exactly as they were (no copy), and publishes
nothing: no branch, no commit, no push, no pull-request call. -/
theorem already_present_no_write {Val : Type} [DecidableEq Val]
    (safe_load : String → Except Unit Val) (env : Env) (url : ParsedURL)
    (template c : String) (v : Val) (api : APIResponse) (a : String)
    (hurl : get_api_url url = .ok a)
    (hc : safe_load c = .ok v) (ht : safe_load template = .ok v) :
    (run_main safe_load env url template (some c) api).outcome =
      some InstallOutcome.alreadyPresent ∧
    (run_main safe_load env url template (some c) api).destAfter = some c ∧
    (run_main safe_load env url template (some c) api).copiedTemplate = false ∧
    (run_main safe_load env url template (some c) api).branchCreated = false ∧
    (run_main safe_load env url template (some c) api).committed = false ∧
    (run_main safe_load env url template (some c) api).pushed = false ∧
    (run_main safe_load env url template (some c) api).prCalled = false := by
  have hsame := is_yaml_same_of_eq safe_load c template v hc ht
  simp [run_main, hurl, hsame, emptyTrace]

/-- Claim C5 (witness): `"ba"` and the template `"ab"` are distinct texts
with equal parses; installation leaves `"ba"` untouched. -/
theorem already_present_no_write_witness :
    (run_main yamlLoadModel envFull urlAB "ab" (some "ba") apiOk).outcome =
      some InstallOutcome.alreadyPresent ∧
    (run_main yamlLoadModel envFull urlAB "ab" (some "ba") apiOk).destAfter =
      some "ba" ∧
    (run_main yamlLoadModel envFull urlAB "ab" (some "ba") apiOk).copiedTemplate =
      false ∧
    (run_main yamlLoadModel envFull urlAB "ab" (some "ba") apiOk).branchCreated =
      false ∧
    (run_main yamlLoadModel envFull urlAB "ab" (some "ba") apiOk).committed =
      false ∧
    (run_main yamlLoadModel envFull urlAB "ab" (some "ba") apiOk).pushed =
      false ∧
    (run_main yamlLoadModel envFull urlAB "ab" (some "ba") apiOk).prCalled =
      false :=
  already_present_no_write yamlLoadModel envFull urlAB "ab" "ba" 2 apiOk
    "https://api.github.com/repos/a/b" (by decide) (by decide) (by decide)

/-- Claim C6: with no existing file the run installs the template (result
"installed", destination content is exactly the template, hence with the
template's parsed structure); with a structurally different existing file
it overwrites (result "updated") and the new content equals the template
exactly. -/
theorem install_fresh_or_update {Val : Type} [DecidableEq Val]
    (safe_load : String → Except Unit Val) (env : Env) (url : ParsedURL)
    (template : String) (api : APIResponse) (a : String)
    (hurl : get_api_url url = .ok a) :
    ((run_main safe_load env url template none api).outcome =
        some InstallOutcome.installed ∧
      (run_main safe_load env url template none api).destAfter =
        some template) ∧
    ∀ c v w, safe_load c = .ok v → safe_load template = .ok w → v ≠ w →
      (run_main safe_load env url template (some c) api).outcome =
        some InstallOutcome.updated ∧
      (run_main safe_load env url template (some c) api).destAfter =
        some template := by
  constructor
  · have hsame : is_yaml_content_same safe_load none template = .ok false := rfl
    constructor <;>
      by_cases hpr : (create_pull_request api).1 ≠ -1 <;>
      simp [run_main, hurl, hsame, hpr, emptyTrace]
  · intro c v w hc ht hvw
    have hsame := is_yaml_same_of_ne safe_load c template v w hc ht hvw
    constructor <;>
      by_cases hpr : (create_pull_request api).1 ≠ -1 <;>
      simp [run_main, hurl, hsame, hpr, emptyTrace]

/-- Claim C6 (witness): an empty destination yields "installed"; the
structurally different `"xyz"` yields "updated" with the template as new
content. -/
theorem install_fresh_or_update_witness :
    ((run_main yamlLoadModel envFull urlAB "ab" none apiOk).outcome =
      some InstallOutcome.installed ∧
     (run_main yamlLoadModel envFull urlAB "ab" none apiOk).destAfter =
      some "ab") ∧
    (run_main yamlLoadModel envFull urlAB "ab" (some "xyz") apiOk).outcome =
      some InstallOutcome.updated ∧
    (run_main yamlLoadModel envFull urlAB "ab" (some "xyz") apiOk).destAfter =
      some "ab" :=
  ⟨(install_fresh_or_update yamlLoadModel envFull urlAB "ab" apiOk
      "https://api.github.com/repos/a/b" (by decide)).1,
   (install_fresh_or_update yamlLoadModel envFull urlAB "ab" apiOk
      "https://api.github.com/repos/a/b" (by decide)).2
     "xyz" 3 2 (by decide) (by decide) (by decide)⟩

/-- Claim C1: installation is idempotent. If a first run over any initial
destination content finishes without an uncaught exception, then a second
run on the workspace it left behind (no intervening external change)
reports "already present", copies nothing, and publishes nothing: no
branch, no commit, no push, no pull-request call. Moreover the content
the first run left behind parses to exactly the template's parse. The
hypothesis that the template itself parses reflects that the shipped
template is a fixed well-formed YAML workflow. -/
theorem install_idempotent {Val : Type} [DecidableEq Val]
    (safe_load : String → Except Unit Val) (env env2 : Env) (url : ParsedURL)
    (template : String) (dest : Option String) (api api2 : APIResponse)
    (tv : Val) (ht : safe_load template = .ok tv)
    (h1 : (run_main safe_load env url template dest api).raised = false) :
    (run_main safe_load env2 url template
        (run_main safe_load env url template dest api).destAfter api2).outcome =
      some InstallOutcome.alreadyPresent ∧
    (run_main safe_load env2 url template
        (run_main safe_load env url template dest api).destAfter api2).copiedTemplate =
      false ∧
    (run_main safe_load env2 url template
        (run_main safe_load env url template dest api).destAfter api2).branchCreated =
      false ∧
    (run_main safe_load env2 url template
        (run_main safe_load env url template dest api).destAfter api2).committed =
      false ∧
    (run_main safe_load env2 url template
        (run_main safe_load env url template dest api).destAfter api2).pushed =
      false ∧
    (run_main safe_load env2 url template
        (run_main safe_load env url template dest api).destAfter api2).prCalled =
      false ∧
    ∃ c v, (run_main safe_load env url template dest api).destAfter = some c ∧
      safe_load c = .ok v ∧ safe_load template = .ok v := by
  cases hu : get_api_url url with
  | error e => simp [run_main, hu, emptyTrace] at h1
  | ok a =>
    cases hs : is_yaml_content_same safe_load dest template with
    | error e => simp [run_main, hu, hs, emptyTrace] at h1
    | ok b =>
      cases b with
      | true =>
        obtain ⟨c, v, hdest, hc, htv⟩ :=
          is_yaml_same_ok_true safe_load dest template hs
        subst hdest
        have hd1 : (run_main safe_load env url template (some c) api).destAfter =
            some c := by
          simp [run_main, hu, hs, emptyTrace]
        rw [hd1]
        refine ⟨?_, ?_, ?_, ?_, ?_, ?_, c, v, rfl, hc, htv⟩ <;>
          simp [run_main, hu, hs, emptyTrace]
      | false =>
        have hd1 : (run_main safe_load env url template dest api).destAfter =
            some template := by
          by_cases hpr : (create_pull_request api).1 ≠ -1 <;>
            simp [run_main, hu, hs, hpr, emptyTrace]
        have hsame2 := is_yaml_same_of_eq safe_load template template tv ht ht
        rw [hd1]
        refine ⟨?_, ?_, ?_, ?_, ?_, ?_, template, tv, rfl, ht, ht⟩ <;>
          simp [run_main, hu, hsame2, emptyTrace]

/-- Claim C1 (witness): first run installs into an empty workspace; the
second run over what it left reports "already present" and publishes
nothing. -/
theorem install_idempotent_witness :
    (run_main yamlLoadModel envNone urlAB "ab"
        (run_main yamlLoadModel envFull urlAB "ab" none apiOk).destAfter
        apiFail).outcome = some InstallOutcome.alreadyPresent ∧
    (run_main yamlLoadModel envNone urlAB "ab"
        (run_main yamlLoadModel envFull urlAB "ab" none apiOk).destAfter
        apiFail).copiedTemplate = false ∧
    (run_main yamlLoadModel envNone urlAB "ab"
        (run_main yamlLoadModel envFull urlAB "ab" none apiOk).destAfter
        apiFail).branchCreated = false ∧
    (run_main yamlLoadModel envNone urlAB "ab"
        (run_main yamlLoadModel envFull urlAB "ab" none apiOk).destAfter
        apiFail).committed = false ∧
    (run_main yamlLoadModel envNone urlAB "ab"
        (run_main yamlLoadModel envFull urlAB "ab" none apiOk).destAfter
        apiFail).pushed = false ∧
    (run_main yamlLoadModel envNone urlAB "ab"
        (run_main yamlLoadModel envFull urlAB "ab" none apiOk).destAfter
        apiFail).prCalled = false ∧
    ∃ c v, (run_main yamlLoadModel envFull urlAB "ab" none apiOk).destAfter =
        some c ∧
      yamlLoadModel c = .ok v ∧ yamlLoadModel "ab" = .ok v :=
  install_idempotent yamlLoadModel envFull envNone urlAB "ab" none apiOk
    apiFail 2 (by decide) (by decide)

/-- Claim C2 (counterexample): the claim says a parse failure on the
existing file is treated as "not equal" and falls through to an
overwrite, never fatally. On the malformed existing document `"\x7b"` (on
which the modelled `safe_load` raises) the comparison instead propagates
the exception: no overwrite happens, no outcome is reached, and the run
ends with an uncaught error. -/
theorem malformed_existing_not_overwritten :
    is_yaml_content_same yamlLoadModel (some "\x7b") "ab" = .error () ∧
    (run_main yamlLoadModel envFull urlAB "ab" (some "\x7b") apiOk).raised =
      true ∧
    (run_main yamlLoadModel envFull urlAB "ab" (some "\x7b") apiOk).copiedTemplate =
      false ∧
    (run_main yamlLoadModel envFull urlAB "ab" (some "\x7b") apiOk).outcome =
      none := by decide

/-- Claim C2 (amended): `is_yaml_content_same` wraps neither `safe_load`
call in a `try`, so a parse failure on the existing file propagates: the
comparison returns the error, the pipeline copies nothing and publishes
nothing, the exception escapes the run, and the context manager still
removes the workspace. -/
theorem malformed_existing_fatal {Val : Type} [DecidableEq Val]
    (safe_load : String → Except Unit Val) (env : Env) (url : ParsedURL)
    (template c : String) (api : APIResponse) (a : String)
    (hurl : get_api_url url = .ok a) (hc : safe_load c = .error ()) :
    is_yaml_content_same safe_load (some c) template = .error () ∧
    (run_main safe_load env url template (some c) api).raised = true ∧
    (run_main safe_load env url template (some c) api).copiedTemplate =
      false ∧
    (run_main safe_load env url template (some c) api).destAfter = some c ∧
    (run_main safe_load env url template (some c) api).prCalled = false ∧
    (run_main safe_load env url template (some c) api).workspaceRemoved =
      true := by
  have hsame : is_yaml_content_same safe_load (some c) template =
      .error () := by
    simp only [is_yaml_content_same]
    rw [hc]
  exact ⟨hsame, by simp [run_main, hurl, hsame, emptyTrace],
    by simp [run_main, hurl, hsame, emptyTrace],
    by simp [run_main, hurl, hsame, emptyTrace],
    by simp [run_main, hurl, hsame, emptyTrace],
    by simp [run_main, hurl, hsame, emptyTrace]⟩

/-- Claim C2 amended (witness): a malformed existing file aborts the run
without an overwrite. -/
theorem malformed_existing_fatal_witness :
    is_yaml_content_same yamlLoadModel (some "\x7b") "xy" = .error () ∧
    (run_main yamlLoadModel envNone urlAB "xy" (some "\x7b") apiFail).raised =
      true ∧
    (run_main yamlLoadModel envNone urlAB "xy" (some "\x7b") apiFail).copiedTemplate =
      false ∧
    (run_main yamlLoadModel envNone urlAB "xy" (some "\x7b") apiFail).destAfter =
      some "\x7b" ∧
    (run_main yamlLoadModel envNone urlAB "xy" (some "\x7b") apiFail).prCalled =
      false ∧
    (run_main yamlLoadModel envNone urlAB "xy" (some "\x7b") apiFail).workspaceRemoved =
      true :=
  malformed_existing_fatal yamlLoadModel envNone urlAB "xy" "\x7b" apiFail
    "https://api.github.com/repos/a/b" (by decide) (by decide)

/-- Claim C8: when the pull-request call returns a status other than 201,
`create_pull_request` prints the failure reason and returns the sentinel
`-1` instead of raising; the run then skips the assignee call and still
removes the temporary workspace, ending without an uncaught exception. -/
theorem pr_failure_sentinel {Val : Type} [DecidableEq Val]
    (safe_load : String → Except Unit Val) (env : Env) (url : ParsedURL)
    (template : String) (dest : Option String) (api : APIResponse)
    (a : String) (hurl : get_api_url url = .ok a)
    (hsame : is_yaml_content_same safe_load dest template = .ok false)
    (hstatus : api.status ≠ 201) :
    create_pull_request api =
      (-1, ["Failed to create pull request: " ++ api.message]) ∧
    (run_main safe_load env url template dest api).prCalled = true ∧
    (run_main safe_load env url template dest api).assigneeCalled = false ∧
    (run_main safe_load env url template dest api).workspaceRemoved = true ∧
    (run_main safe_load env url template dest api).raised = false ∧
    (run_main safe_load env url template dest api).messages =
      ["Failed to create pull request: " ++ api.message] := by
  have hpr : create_pull_request api =
      (-1, ["Failed to create pull request: " ++ api.message]) := by
    unfold create_pull_request
    rw [if_pos hstatus]
  refine ⟨hpr, ?_, ?_, ?_, ?_, ?_⟩ <;>
    simp [run_main, hurl, hsame, hpr, emptyTrace]

/-- Claim C8 (witness): a 422 response yields the sentinel, no assignee
call, and a removed workspace. -/
theorem pr_failure_sentinel_witness :
    create_pull_request apiFail =
      (-1, ["Failed to create pull request: " ++ apiFail.message]) ∧
    (run_main yamlLoadModel envFull urlAB "ab" (some "xyz") apiFail).prCalled =
      true ∧
    (run_main yamlLoadModel envFull urlAB "ab" (some "xyz") apiFail).assigneeCalled =
      false ∧
    (run_main yamlLoadModel envFull urlAB "ab" (some "xyz") apiFail).workspaceRemoved =
      true ∧
    (run_main yamlLoadModel envFull urlAB "ab" (some "xyz") apiFail).raised =
      false ∧
    (run_main yamlLoadModel envFull urlAB "ab" (some "xyz") apiFail).messages =
      ["Failed to create pull request: " ++ apiFail.message] :=
  pr_failure_sentinel yamlLoadModel envFull urlAB "ab" (some "xyz") apiFail
    "https://api.github.com/repos/a/b" (by decide) (by decide) (by decide)

/-- Claim C7 (counterexample): the request body fixes `base` to the
string literal `"main"`; for a repository whose default branch is
`master` the pull request is therefore not opened against the default
branch. The payload carries no information about the target repository
at all. -/
theorem pull_request_base_not_default :
    (pull_request_payload "octocat").base = "main" ∧
    (pull_request_payload "octocat").base ≠ "master" := by decide

/-- Claim C7 (amended): the pull request is opened from the fixed branch
`enable-dependabot-auto-merge` with base fixed to the literal `"main"`,
for every acting user; this coincides with the target repository's
default branch only when that default is `main`. -/
theorem pull_request_fixed_branches (user : String) :
    (pull_request_payload user).head = "enable-dependabot-auto-merge" ∧
    (pull_request_payload user).base = "main" :=
  ⟨rfl, rfl⟩

/-- Claim C9 (counterexample): with every environment variable absent the
program does not fail fast: on a well-formed URL it still clones and
still issues the permissions API call, and ends with no error at all on
this input. -/
theorem missing_env_not_failfast :
    (run_main yamlLoadModel envNone urlAB "ab" none apiOk).cloned = true ∧
    (run_main yamlLoadModel envNone urlAB "ab" none apiOk).permissionsCalled =
      true ∧
    (run_main yamlLoadModel envNone urlAB "ab" none apiOk).raised = false := by
  decide

/-- Claim C9 (amended): the four environment variables are read with
`os.getenv` and never checked: for every environment — including one
with all four variables absent — a run on a well-formed URL proceeds to
the clone and to the permissions API call; there is no fail-fast
configuration-error path before the downstream operations. -/
theorem env_never_validated {Val : Type} [DecidableEq Val]
    (safe_load : String → Except Unit Val) (env : Env) (url : ParsedURL)
    (template : String) (dest : Option String) (api : APIResponse)
    (a : String) (hurl : get_api_url url = .ok a) :
    (run_main safe_load env url template dest api).cloned = true ∧
    (run_main safe_load env url template dest api).permissionsCalled =
      true := by
  cases hs : is_yaml_content_same safe_load dest template with
  | error e => constructor <;> simp [run_main, hurl, hs, emptyTrace]
  | ok b =>
    cases b with
    | true => constructor <;> simp [run_main, hurl, hs, emptyTrace]
    | false =>
      constructor <;>
        by_cases hpr : (create_pull_request api).1 ≠ -1 <;>
        simp [run_main, hurl, hs, hpr, emptyTrace]

/-- Claim C9 amended (witness): with the empty environment the run still
clones and calls the permissions endpoint. -/
theorem env_never_validated_witness :
    (run_main yamlLoadModel envNone urlAB "xy" (some "pqr") apiFail).cloned =
      true ∧
    (run_main yamlLoadModel envNone urlAB "xy" (some "pqr") apiFail).permissionsCalled =
      true :=
  env_never_validated yamlLoadModel envNone urlAB "xy" (some "pqr") apiFail
    "https://api.github.com/repos/a/b" (by decide)

end AutoMerge
